import Mathlib

/-!
Verification development for the kernel-apps browser-automation scripts
(src/github/main.py, src/venmo/main.py, src/google-search/main.py).

The Python sources are embedded shallowly:

* Python string inputs (which at runtime may be None or a non-string) are
  values of `PyVal`; Python truthiness is `pyTruthy`.
* The input validators `cleanup_url`, `cleanup_username`, `cleanup_str`
  and `cleanup_search_query` are pure Lean functions returning
  `Except String String` (`.error` is `raise ValueError`).
* `wait_for_login` is modelled over an abstract probe `Nat → Bool`
  (whether the login-indicator probe started at a given time succeeds),
  with explicit Nat time: a timeout `T`, a successful-probe cost `cs`, a
  failed-probe cost `cf` (the 1000 ms locator wait) and the
  `time.sleep` poll interval `P`.  The loop is run on fuel and returns
  `Option WflRes`; a lemma shows the fuel is adequate when `0 < cf + P`.
* Each action (`unwatch`, `pay_user`, `search`) is a function from its
  input and an environment (the remote browser / page behaviour it
  interacts with) to a result `Except PyErr _` paired with the list of
  external effects it performed, in order (`Event`).  Exceptions raised
  by the Python code are `.error` values; `finally` blocks are encoded
  by appending `Event.browserClose` on the corresponding paths.
* In src/github/main.py line 122 the call `page = get_page(browser)` is
  not awaited, so `page` is a coroutine object and every attribute
  access such as `page.goto` raises AttributeError.  This is embedded
  by the `PageVal` type: the try-block body `unwatchBody` is
  parametrised by the page value, and `unwatch` passes
  `PageVal.coroutine` exactly as the source does.
-/

/-- A Python value that may be passed where a string is expected:
None, a string, or some other object with the given truthiness. -/
inductive PyVal where
  | pynone
  | pystr (s : String)
  | pyother (truthy : Bool)
deriving DecidableEq

/-- Python truthiness of a `PyVal` (bool(v)). -/
def pyTruthy : PyVal → Bool
  | .pynone => false
  | .pystr s => s ≠ ""
  | .pyother b => b

/-- Python str.strip() whitespace set (ASCII part). -/
def pyIsSpace (c : Char) : Bool :=
  c == ' ' || c == '\t' || c == '\n' || c == '\r' || c == '\x0b' || c == '\x0c'

/-- Python str.strip(): drop leading and trailing whitespace. -/
def pyStrip (s : String) : String :=
  ⟨((s.data.dropWhile pyIsSpace).reverse.dropWhile pyIsSpace).reverse⟩

/-- Python str.startswith. -/
def pyStartsWith (s pre : String) : Bool :=
  s.data.take pre.data.length == pre.data

/-- Model of urllib.parse.urlparse restricted to what cleanup_url feeds
it: the netloc of an http(s) URL, i.e. the characters between the
scheme's // and the first of /, ?, #.  For other strings the netloc is
taken empty (urlparse parses them without a netloc). -/
def netlocOf (url : String) : List Char :=
  let rest : List Char :=
    if pyStartsWith url "https://" then url.data.drop 8
    else if pyStartsWith url "http://" then url.data.drop 7
    else []
  rest.takeWhile fun c => !(c == '/' || c == '?' || c == '#')

/-- Model of the raising behaviour of urllib.parse.urlparse (CPython
urlsplit): it raises ValueError (Invalid IPv6 URL) exactly when the
netloc contains an unmatched square bracket. -/
def urlparseRaises (url : String) : Bool :=
  let n := netlocOf url
  (n.contains '[' && !(n.contains ']')) || (n.contains ']' && !(n.contains '['))

/-- cleanup_url from src/github/main.py lines 19-28 (identical in
src/venmo/main.py lines 20-29). -/
def cleanup_url (url : PyVal) : Except String String :=
  match url with
  | .pystr s =>
    if s = "" then .error "URL is required and must be a string"
    else
      let url2 := if pyStartsWith s "http://" || pyStartsWith s "https://"
                  then s else "https://" ++ s
      if urlparseRaises url2 then .error ("Invalid URL: " ++ url2)
      else .ok url2
  | _ => .error "URL is required and must be a string"

/-- cleanup_username from src/github/main.py lines 30-33. -/
def cleanup_username (username : PyVal) : Except String String :=
  match username with
  | .pystr s =>
    if s = "" then .error "Username is required and must be a string"
    else if pyStrip s = "" then .error "Username is required and must be a string"
    else .ok (pyStrip s)
  | _ => .error "Username is required and must be a string"

/-- cleanup_str from src/venmo/main.py lines 31-34. -/
def cleanup_str (s : PyVal) : Except String String :=
  match s with
  | .pystr t =>
    if t = "" then .error "String is required and must be a string"
    else if pyStrip t = "" then .error "String is required and must be a string"
    else .ok (pyStrip t)
  | _ => .error "String is required and must be a string"

/-- cleanup_search_query from src/google-search/main.py lines 22-25:
note it strips the query only on return and never rejects a
whitespace-only (hence truthy) string. -/
def cleanup_search_query (query : PyVal) : Except String String :=
  match query with
  | .pystr s =>
    if s = "" then .error "Query is required and must be a string"
    else .ok (pyStrip s)
  | _ => .error "Query is required and must be a string"

/-- Outcome of one run of wait_for_login: the returned boolean, the
total elapsed time at return, the number of times the one-time
go-log-in prompt was printed, and the number of time.sleep calls. -/
structure WflRes where
  result : Bool
  elapsed : Nat
  prompts : Nat
  sleeps : Nat
deriving DecidableEq

/-- The while loop of wait_for_login (src/github/main.py lines 51-62,
identical in src/venmo/main.py lines 52-63), with explicit time:
at current time t, while t - 0 < T, probe (cost cs on success, cf on
failure), print the prompt on the first failed probe, then sleep P.
Fuel bounds the number of iterations; `waitForLoginAux_absent` shows
fuel T is enough whenever 0 < cf + P. -/
def waitForLoginAux (probe : Nat → Bool) (T cs cf P : Nat) :
    Nat → Nat → Bool → Nat → Nat → Option WflRes
  | fuel, t, first, prompts, sleeps =>
    if t < T then
      match fuel with
      | 0 => none
      | fuel' + 1 =>
        if probe t then some ⟨true, t + cs, prompts, sleeps⟩
        else waitForLoginAux probe T cs cf P fuel' (t + cf + P) false
               (prompts + (if first then 1 else 0)) (sleeps + 1)
    else some ⟨false, t, prompts, sleeps⟩

/-- wait_for_login (src/github/main.py lines 47-62, src/venmo/main.py
lines 48-63): start at time 0 with first_check = True. -/
def wait_for_login (probe : Nat → Bool) (T cs cf P : Nat) : Option WflRes :=
  waitForLoginAux probe T cs cf P T 0 true 0 0

/-- An external effect performed by an action, in program order. -/
inductive Event where
  | browsersCreate (persistenceId : String)
  | connect
  | newContext
  | newPage
  | goto (url : String)
  | loginPoll
  | evalUnwatchSpan
  | click (selector : String)
  | fill (selector value : String)
  | pressEnter
  | waitForLoadState
  | waitForSelector (selector : String)
  | querySelector (selector : String)
  | readTexts
  | browserClose
deriving DecidableEq

/-- A raised Python exception, by class. -/
inductive PyErr where
  | valueError (msg : String)
  | attributeError (msg : String)
  | timeoutError
  | exception (msg : String)
deriving DecidableEq

/-- The Output TypedDict of the github and venmo scripts. -/
structure Output where
  success : Bool
  message : String
deriving DecidableEq

/-- persistent_browser_id from src/github/main.py lines 16-17. -/
def persistent_browser_id (username : String) : String :=
  "github-" ++ username

/-- The value bound to the name page in the unwatch action: the real
awaited page, or the un-awaited coroutine object that
src/github/main.py line 122 actually produces. -/
inductive PageVal where
  | real
  | coroutine
deriving DecidableEq

/-- Behaviour of the remote page the unwatch action drives: whether the
login-indicator probe started at time t succeeds, whether the page has
a span whose text includes Unwatch, and whether the confirmation click
succeeds within its 3000 ms bound. -/
structure GithubEnv where
  loginProbe : Nat → Bool
  unwatchSpanFound : Bool
  confirmClickOk : Bool

/-- page.goto: on the real page it navigates; on the un-awaited
coroutine object the attribute access itself raises AttributeError. -/
def pageGoto (pv : PageVal) (url : String) : Except PyErr Unit × List Event :=
  match pv with
  | .coroutine =>
    (.error (.attributeError "'coroutine' object has no attribute 'goto'"), [])
  | .real => (.ok (), [Event.goto url])

/-- The try-block body of the unwatch action (src/github/main.py lines
124-150), parametrised by the value bound to page: goto url, run the
login poller (defaults: timeout 120, poll interval 1; the failed probe
costs its 1000 ms locator wait, a successful probe returns at once),
return a success:false result on poll timeout, re-goto, evaluate the
span scan, report already-unwatched if no span was found, otherwise
click the confirmation element. -/
def unwatchBody (pv : PageVal) (env : GithubEnv) (url : String) :
    Except PyErr Output × List Event :=
  match pageGoto pv url with
  | (.error e, t) => (.error e, t)
  | (.ok _, t1) =>
    match wait_for_login env.loginProbe 120 0 1 1 with
    | none => (.error (.exception "login poll model ran out of fuel"), t1)
    | some r =>
      let t2 := t1 ++ [Event.loginPoll]
      if r.result = false then
        (.ok ⟨false, "Login not detected within timeout."⟩, t2)
      else
        match pageGoto pv url with
        | (.error e, t) => (.error e, t2 ++ t)
        | (.ok _, t3') =>
          let t4 := t2 ++ t3' ++ [Event.evalUnwatchSpan]
          if env.unwatchSpanFound = false then
            (.ok ⟨true, "Repo already unwatched: " ++ url⟩, t4)
          else
            let t5 := t4 ++ [Event.click "span has_text=Only receive notifications from this repository when participating or @mentioned."]
            if env.confirmClickOk then
              (.ok ⟨true, "Unwatched repo: " ++ url⟩, t5)
            else
              (.error .timeoutError, t5)

/-- The unwatch action input dict: input.get(\x22url\x22) and
input.get(\x22username\x22, \x22\x22) as the PyVal values they produce. -/
structure UnwatchInput where
  url : PyVal
  username : PyVal
deriving DecidableEq

/-- The unwatch action (src/github/main.py lines 112-152): validate
url then username, create the persistent remote browser, connect,
bind page to the UN-awaited get_page coroutine (line 122 has no
await), run the try body, and close the browser in the finally. -/
def unwatch (inp : UnwatchInput) (env : GithubEnv) :
    Except PyErr Output × List Event :=
  match cleanup_url inp.url with
  | .error e => (.error (.valueError e), [])
  | .ok url =>
    match cleanup_username inp.username with
    | .error e => (.error (.valueError e), [])
    | .ok username =>
      let t0 := [Event.browsersCreate (persistent_browser_id username),
                 Event.connect]
      let body := unwatchBody PageVal.coroutine env url
      (body.1, t0 ++ body.2 ++ [Event.browserClose])

/-- Behaviour of the remote browser session the pay-user action drives:
the number of browser contexts and of pages in the first context, the
URL the page ends up at after navigating to a given target (page.url),
and whether each locator interaction succeeds within its wait bound. -/
structure VenmoEnv where
  contexts : Nat
  pages : Nat
  urlAfterGoto : String → String
  payClickOk : Bool
  amountFillOk : Bool
  noteFillOk : Bool
  payRequestClickOk : Bool
  fundingClickOk : Bool

/-- get_page from src/venmo/main.py lines 65-71 (as awaited by
pay_user): raise if there is no browser context, otherwise use the
first page of the first context, creating one if none exists. -/
def getPageVenmo (env : VenmoEnv) : Except PyErr Unit × List Event :=
  if env.contexts = 0 then (.error (.exception "No context found"), [])
  else if env.pages = 0 then (.ok (), [Event.newPage])
  else (.ok (), [])

/-- The three early-return guards of pay_user (src/venmo/main.py lines
116-121), applied to the already-cleaned strings in source order:
note, then amount, then username. -/
def payUserGuards (username amount note : String) : Option Output :=
  if note = "" then some ⟨false, "note is required"⟩
  else if amount = "" then some ⟨false, "amount is required"⟩
  else if username = "" then some ⟨false, "username is required"⟩
  else none

/-- The pay-user action input dict. -/
structure PayUserInput where
  username : PyVal
  amount : PyVal
  note : PyVal
deriving DecidableEq

/-- The pay-user action (src/venmo/main.py lines 111-149): clean the
three inputs, run the guards, create the persistent remote browser,
connect, await get_page (OUTSIDE the try block: if it raises, the
finally does not run and the browser is not closed), then in the try
block navigate to the profile URL, wait for network idle, compare
page.url with the expected profile URL (mismatch is reported as a
success:false result), and otherwise click pay, fill amount and note,
click the pay-submit and the funding-instrument controls; the finally
block closes the browser. -/
def pay_user (inp : PayUserInput) (env : VenmoEnv) :
    Except PyErr Output × List Event :=
  match cleanup_str inp.username with
  | .error e => (.error (.valueError e), [])
  | .ok username =>
    match cleanup_str inp.amount with
    | .error e => (.error (.valueError e), [])
    | .ok amount =>
      match cleanup_str inp.note with
      | .error e => (.error (.valueError e), [])
      | .ok note =>
        match payUserGuards username amount note with
        | some out => (.ok out, [])
        | none =>
          let t0 := [Event.browsersCreate "venmo", Event.connect]
          match getPageVenmo env with
          | (.error e, tg) => (.error e, t0 ++ tg)
          | (.ok _, tg) =>
            let profileUrl := "https://account.venmo.com/u/" ++ username
            let t1 := t0 ++ tg
            let landed := env.urlAfterGoto profileUrl
            let tNav := [Event.goto profileUrl, Event.waitForLoadState]
            let body : Except PyErr Output × List Event :=
              if landed ≠ profileUrl then
                (.ok ⟨false, "User " ++ username ++
                      " not found or not logged in. Redirected to " ++ landed⟩,
                 tNav)
              else
                let tPay := tNav ++ [Event.click "[class*='profile_payRequestButton']"]
                if !env.payClickOk then (.error .timeoutError, tPay)
                else
                  let tAmt := tPay ++ [Event.fill "input[aria-label='Amount']" amount]
                  if !env.amountFillOk then (.error .timeoutError, tAmt)
                  else
                    let tNote := tAmt ++ [Event.fill "textarea[id='payment-note']" note]
                    if !env.noteFillOk then (.error .timeoutError, tNote)
                    else
                      let tReq := tNote ++ [Event.click "[class^='pay_payRequestButton'] :first-child"]
                      if !env.payRequestClickOk then (.error .timeoutError, tReq)
                      else
                        let tFund := tReq ++ [Event.click "[class*='fundingInstrumentFactory_buttonGroup'] :first-child"]
                        if !env.fundingClickOk then (.error .timeoutError, tFund)
                        else
                          (.ok ⟨true, "Paid " ++ username ++ " " ++ amount ++
                                " for " ++ note⟩, tFund)
            (body.1, t1 ++ body.2 ++ [Event.browserClose])

/-- Does a hold anywhere inside b as a contiguous sublist? -/
def listContainsSub (needle hay : List Char) : Bool :=
  (List.range (hay.length + 1)).any fun i =>
    (hay.drop i).take needle.length == needle

/-- Behaviour of the browser the search action drives: contexts/pages
for get_page, whether the search textarea exists before navigating,
the current page URL, whether the textarea exists after navigating to
the Google homepage, and the text_content of each located div.g result
element, in DOM order. -/
structure GoogleEnv where
  contexts : Nat
  pages : Nat
  inputExistsBefore : Bool
  pageUrl : String
  inputExistsAfterNav : Bool
  resultTexts : List (Option String)

/-- get_page from src/google-search/main.py lines 27-35: creates a
context when none exists (never raises). -/
def getPageGoogle (env : GoogleEnv) : List Event :=
  (if env.contexts = 0 then [Event.newContext] else []) ++
  (if env.contexts = 0 ∨ env.pages = 0 then [Event.newPage] else [])

/-- Python truthiness of an element's text_content: a non-None,
non-empty string. -/
def textTruthy : Option String → Bool
  | some s => s ≠ ""
  | none => false

/-- The result list comprehension of perform_search
(src/google-search/main.py line 66): keep each truthy text. -/
def filterTexts (texts : List (Option String)) : List String :=
  texts.filterMap fun t =>
    match t with
    | some s => if s = "" then none else some s
    | none => none

/-- asyncio.gather over the per-element text_content reads
(src/google-search/main.py line 65): the reads complete in any order,
but gather returns their values in argument order, so the gathered
list is the element-order list of texts. -/
def asyncioGather (texts : List (Option String)) : List (Option String) :=
  texts

/-- perform_search (src/google-search/main.py lines 37-66): get the
page, probe for the search textarea, navigate to the Google homepage
when the textarea is absent or the URL does not contain google.com
(raising if the textarea is still absent after navigating), fill the
query, press Enter, wait for results, read all result texts
concurrently and keep the truthy ones. -/
def perform_search (env : GoogleEnv) (query : String) :
    Except PyErr (List String) × List Event :=
  let searchSel := "textarea[aria-label=\x22Search\x22]"
  let t0 := getPageGoogle env ++ [Event.querySelector searchSel]
  let urlGoogle := listContainsSub "google.com".data env.pageUrl.data
  let rest : List Event → Except PyErr (List String) × List Event := fun t =>
    (.ok (filterTexts (asyncioGather env.resultTexts)),
     t ++ [Event.fill searchSel query, Event.pressEnter,
           Event.waitForLoadState, Event.waitForSelector "div.g",
           Event.readTexts])
  if !env.inputExistsBefore || !urlGoogle then
    let t1 := t0 ++ [Event.goto "https://www.google.com",
                     Event.querySelector searchSel]
    if !env.inputExistsAfterNav then
      (.error (.exception "Could not find search textarea on Google homepage"), t1)
    else rest t1
  else rest t0

/-- The Output TypedDict of the google-search script. -/
structure SearchOutput where
  success : Bool
  results : List String
deriving DecidableEq

/-- The search action input dict. -/
structure SearchInput where
  query : PyVal
deriving DecidableEq

/-- The search action (src/google-search/main.py lines 76-92): clean
the query, create the stealth remote browser, connect, and run
perform_search inside a try block whose finally closes the browser. -/
def search (inp : SearchInput) (env : GoogleEnv) :
    Except PyErr SearchOutput × List Event :=
  match cleanup_search_query inp.query with
  | .error e => (.error (.valueError e), [])
  | .ok query =>
    let t0 := [Event.browsersCreate "google", Event.connect]
    let body := perform_search env query
    match body.1 with
    | .error e => (.error e, t0 ++ body.2 ++ [Event.browserClose])
    | .ok results =>
      (.ok ⟨true, results⟩, t0 ++ body.2 ++ [Event.browserClose])

/-- Decidable equality of Except values, for evaluating action results
on concrete inputs. -/
instance {e a : Type} [DecidableEq e] [DecidableEq a] : DecidableEq (Except e a) := fun x y =>
  match x, y with
  | .ok u, .ok v =>
    if h : u = v then .isTrue (by rw [h]) else .isFalse (by intro hc; cases hc; exact h rfl)
  | .error u, .error v =>
    if h : u = v then .isTrue (by rw [h]) else .isFalse (by intro hc; cases hc; exact h rfl)
  | .ok _, .error _ => .isFalse (by intro hc; cases hc)
  | .error _, .ok _ => .isFalse (by intro hc; cases hc)

/-- When every probe fails, the poll loop with enough fuel returns
false at the first time that reaches the timeout: the elapsed time is
at least T, and is either the entry time or below T + (cf + P). -/
lemma waitForLoginAux_absent (probe : Nat → Bool) (T cs cf P : Nat)
    (hprobe : ∀ t, probe t = false) :
    ∀ fuel t first prompts sleeps, T ≤ t + fuel * (cf + P) →
    ∃ e p s, waitForLoginAux probe T cs cf P fuel t first prompts sleeps
        = some ⟨false, e, p, s⟩ ∧ T ≤ e ∧ (e = t ∨ e < T + (cf + P)) := by
  intro fuel
  induction fuel with
  | zero =>
    intro t first prompts sleeps hle
    refine ⟨t, prompts, sleeps, ?_, by omega, Or.inl rfl⟩
    unfold waitForLoginAux
    have : ¬ t < T := by omega
    simp [this]
  | succ n ih =>
    intro t first prompts sleeps hle
    by_cases ht : t < T
    · have hrec := ih (t + cf + P) false
        (prompts + (if first then 1 else 0)) (sleeps + 1)
        (by rw [Nat.succ_mul] at hle; omega)
      obtain ⟨e, p, s, heq, hTe, hdisj⟩ := hrec
      refine ⟨e, p, s, ?_, hTe, Or.inr ?_⟩
      · unfold waitForLoginAux
        simp [ht, hprobe t, heq]
      · rcases hdisj with h | h
        · omega
        · exact h
    · refine ⟨t, prompts, sleeps, ?_, by omega, Or.inl rfl⟩
      unfold waitForLoginAux
      simp [ht]

/-- C3: if the login-indicator probe succeeds at time 0 (and the
timeout is positive, as the default 120 is), wait_for_login returns
true with only the successful probe's cost elapsed, zero sleeps and
zero prompts. -/
theorem c3_login_present_at_entry (probe : Nat → Bool) (T cs cf P : Nat)
    (hT : 0 < T) (h0 : probe 0 = true) :
    wait_for_login probe T cs cf P = some ⟨true, cs, 0, 0⟩ := by
  unfold wait_for_login
  cases T with
  | zero => omega
  | succ n =>
    unfold waitForLoginAux
    simp [h0]

/-- Witness for C3 at timeout 5 and an indicator present at entry. -/
theorem c3_login_present_at_entry_witness :
    wait_for_login (fun _ => true) 5 0 1 1 = some ⟨true, 0, 0, 0⟩ :=
  c3_login_present_at_entry (fun _ => true) 5 0 1 1 (by decide) (by decide)

/-- C4: if the login-indicator probe fails throughout, each failed
probe costing cf at most 1 time unit and the loop advancing by
cf + P > 0 per iteration, wait_for_login returns false with elapsed
time at least the timeout T and at most T plus one poll interval P. -/
theorem c4_login_absent_timeout (probe : Nat → Bool) (T cs cf P : Nat)
    (hprobe : ∀ t, probe t = false) (hcf : cf ≤ 1) (hstep : 0 < cf + P) :
    ∃ r, wait_for_login probe T cs cf P = some r ∧
      r.result = false ∧ T ≤ r.elapsed ∧ r.elapsed ≤ T + P := by
  have h := waitForLoginAux_absent probe T cs cf P hprobe T 0 true 0 0
    (by have : T ≤ T * (cf + P) := Nat.le_mul_of_pos_right T hstep; omega)
  obtain ⟨e, p, s, heq, hTe, hdisj⟩ := h
  refine ⟨⟨false, e, p, s⟩, heq, rfl, ?_, ?_⟩
  · exact hTe
  · show e ≤ T + P
    rcases hdisj with h | h <;> omega

/-- Witness for C4 at timeout 3, probe cost 1, poll interval 1: the
poller returns false with elapsed time 4 ∈ [3, 3 + 1]. -/
theorem c4_login_absent_timeout_witness :
    ∃ r, wait_for_login (fun _ => false) 3 0 1 1 = some r ∧
      r.result = false ∧ 3 ≤ r.elapsed ∧ r.elapsed ≤ 3 + 1 :=
  c4_login_absent_timeout (fun _ => false) 3 0 1 1 (fun _ => rfl)
    (by decide) (by decide)

/-- A list of whitespace characters does not contain a non-whitespace
character. -/
lemma spaceList_not_contains (l : List Char) (h : ∀ x ∈ l, pyIsSpace x = true)
    (c : Char) (hc : pyIsSpace c = false) : l.contains c = false := by
  induction l with
  | nil => rfl
  | cons a as ih =>
    have ha := h a (by simp)
    have hrest := ih (fun x hx => h x (by simp [hx]))
    simp only [List.contains_cons, hrest, Bool.or_false]
    by_cases hca : c = a
    · subst hca; rw [ha] at hc; cases hc
    · simp [hca]

/-- Stripping a whitespace-only string yields the empty string. -/
lemma pyStrip_of_space (s : String) (h : s.data.all pyIsSpace = true) :
    pyStrip s = "" := by
  unfold pyStrip
  have hd : s.data.dropWhile pyIsSpace = [] := by
    rw [List.dropWhile_eq_nil_iff]
    exact List.all_eq_true.mp h
  rw [hd]
  rfl

/-- A string whose first character is whitespace does not start with a
prefix whose first character is not whitespace. -/
lemma pyStartsWith_false_of_space_head (s pre : String) (c : Char)
    (rest : List Char) (hd : s.data = c :: rest) (hc : pyIsSpace c = true)
    (d : Char) (pr : List Char) (hpd : pre.data = d :: pr)
    (hdns : pyIsSpace d = false) : pyStartsWith s pre = false := by
  rw [pyStartsWith, hd, hpd]
  simp only [List.length_cons, List.take_succ_cons]
  rw [beq_eq_false_iff_ne]
  intro hcontra
  injection hcontra with h1 _
  subst h1
  rw [hc] at hdns
  cases hdns

/-- Prepending https:// to a whitespace-only string yields a URL whose
netloc has no square bracket, so the modelled urlparse does not raise. -/
lemma urlparseRaises_https_space (s : String)
    (h : s.data.all pyIsSpace = true) :
    urlparseRaises ("https://" ++ s) = false := by
  have hsw : pyStartsWith ("https://" ++ s) "https://" = true := by
    rw [pyStartsWith, String.data_append]
    have : ("https://".data ++ s.data).take "https://".data.length
        = "https://".data := List.take_left _ _
    rw [this]
    exact beq_self_eq_true _
  have hdrop : ("https://" ++ s).data.drop 8 = s.data := by
    rw [String.data_append]
    have h8 : (8 : Nat) = "https://".data.length := by decide
    rw [h8]
    exact List.drop_left _ _
  have hmem : ∀ x ∈ s.data.takeWhile
      (fun c => !(c == '/' || c == '?' || c == '#')), pyIsSpace x = true := by
    intro x hx
    exact List.all_eq_true.mp h x ((List.takeWhile_sublist _).subset hx)
  unfold urlparseRaises netlocOf
  rw [hsw]
  simp only [if_true, hdrop]
  rw [spaceList_not_contains _ hmem '[' (by decide),
      spaceList_not_contains _ hmem ']' (by decide)]
  rfl

/-- C2 counterexample: the claim says every validator raises on a
whitespace-only input, but cleanup_url accepts the single-space string
and returns it with the https:// scheme prepended. -/
theorem c2_counterexample_whitespace_url :
    cleanup_url (.pystr " ") = .ok "https:// " := by decide

/-- C2 (amended): every validator raises on None, on a non-string, and
on the empty string; cleanup_username and cleanup_str additionally
raise on whitespace-only strings, while cleanup_url returns them with
https:// prepended and cleanup_search_query returns the empty string;
and for every nonempty input without an http:// or https:// scheme,
cleanup_url prepends https:// before applying parse-validation to the
prefixed string. -/
theorem c2_validators_amended :
    (cleanup_url .pynone = .error "URL is required and must be a string"
      ∧ (∀ b, cleanup_url (.pyother b) = .error "URL is required and must be a string")
      ∧ cleanup_url (.pystr "") = .error "URL is required and must be a string")
    ∧ (cleanup_username .pynone = .error "Username is required and must be a string"
      ∧ (∀ b, cleanup_username (.pyother b) = .error "Username is required and must be a string")
      ∧ cleanup_username (.pystr "") = .error "Username is required and must be a string")
    ∧ (cleanup_str .pynone = .error "String is required and must be a string"
      ∧ (∀ b, cleanup_str (.pyother b) = .error "String is required and must be a string")
      ∧ cleanup_str (.pystr "") = .error "String is required and must be a string")
    ∧ (cleanup_search_query .pynone = .error "Query is required and must be a string"
      ∧ (∀ b, cleanup_search_query (.pyother b) = .error "Query is required and must be a string")
      ∧ cleanup_search_query (.pystr "") = .error "Query is required and must be a string")
    ∧ (∀ s : String, s ≠ "" → s.data.all pyIsSpace = true →
        cleanup_username (.pystr s) = .error "Username is required and must be a string"
        ∧ cleanup_str (.pystr s) = .error "String is required and must be a string"
        ∧ cleanup_search_query (.pystr s) = .ok ""
        ∧ cleanup_url (.pystr s) = .ok ("https://" ++ s))
    ∧ (∀ s : String, s ≠ "" → pyStartsWith s "http://" = false →
        pyStartsWith s "https://" = false →
        cleanup_url (.pystr s) =
          if urlparseRaises ("https://" ++ s)
          then .error ("Invalid URL: " ++ ("https://" ++ s))
          else .ok ("https://" ++ s)) := by
  refine ⟨⟨rfl, fun b => rfl, rfl⟩, ⟨rfl, fun b => rfl, rfl⟩,
    ⟨rfl, fun b => rfl, rfl⟩, ⟨rfl, fun b => rfl, rfl⟩, ?_, ?_⟩
  · intro s hne hsp
    have hstrip := pyStrip_of_space s hsp
    have hdata : s.data ≠ [] := by
      intro hnil
      exact hne (String.ext hnil)
    obtain ⟨c, rest, hd⟩ : ∃ c rest, s.data = c :: rest := by
      cases hcase : s.data with
      | nil => exact absurd hcase hdata
      | cons c rest => exact ⟨c, rest, rfl⟩
    have hc : pyIsSpace c = true := by
      have := List.all_eq_true.mp hsp
      exact this c (by rw [hd]; simp)
    have hsw1 : pyStartsWith s "http://" = false :=
      pyStartsWith_false_of_space_head s "http://" c rest hd hc
        'h' "ttp://".data (by decide) (by decide)
    have hsw2 : pyStartsWith s "https://" = false :=
      pyStartsWith_false_of_space_head s "https://" c rest hd hc
        'h' "ttps://".data (by decide) (by decide)
    refine ⟨?_, ?_, ?_, ?_⟩
    · unfold cleanup_username
      simp [hne, hstrip]
    · unfold cleanup_str
      simp [hne, hstrip]
    · unfold cleanup_search_query
      simp [hne, hstrip]
    · unfold cleanup_url
      simp [hne, hsw1, hsw2, urlparseRaises_https_space s hsp]
  · intro s hne h1 h2
    unfold cleanup_url
    simp [hne, h1, h2]

/-- Witness for the amended C2 at concrete inputs: the single-space
string and a bare hostname. -/
theorem c2_validators_amended_witness :
    cleanup_username (.pystr " ") = .error "Username is required and must be a string"
    ∧ cleanup_search_query (.pystr " ") = .ok ""
    ∧ cleanup_url (.pystr "github.com/a/b") =
        (if urlparseRaises ("https://" ++ "github.com/a/b")
         then .error ("Invalid URL: " ++ ("https://" ++ "github.com/a/b"))
         else .ok ("https://" ++ "github.com/a/b")) :=
  ⟨(c2_validators_amended.2.2.2.2.1 " " (by decide) (by decide)).1,
   (c2_validators_amended.2.2.2.2.1 " " (by decide) (by decide)).2.2.1,
   c2_validators_amended.2.2.2.2.2 "github.com/a/b" (by decide) (by decide) (by decide)⟩

/-- C5: whenever input validation fails, each action returns the
raised ValueError with an empty effect trace: in particular no
client.browsers.create call (and no other remote call) is made. -/
theorem c5_validation_before_create :
    (∀ (inp : UnwatchInput) (env : GithubEnv),
      (cleanup_url inp.url).isOk = false ∨ (cleanup_username inp.username).isOk = false →
      (∃ m, (unwatch inp env).1 = .error (.valueError m)) ∧ (unwatch inp env).2 = [])
    ∧ (∀ (inp : PayUserInput) (env : VenmoEnv),
      (cleanup_str inp.username).isOk = false ∨ (cleanup_str inp.amount).isOk = false
        ∨ (cleanup_str inp.note).isOk = false →
      (∃ m, (pay_user inp env).1 = .error (.valueError m)) ∧ (pay_user inp env).2 = [])
    ∧ (∀ (inp : SearchInput) (env : GoogleEnv),
      (cleanup_search_query inp.query).isOk = false →
      (∃ m, (search inp env).1 = .error (.valueError m)) ∧ (search inp env).2 = []) := by
  refine ⟨?_, ?_, ?_⟩
  · intro inp env h
    cases hu : cleanup_url inp.url with
    | error e => exact ⟨⟨e, by simp [unwatch, hu]⟩, by simp [unwatch, hu]⟩
    | ok u =>
      cases hn : cleanup_username inp.username with
      | error e => exact ⟨⟨e, by simp [unwatch, hu, hn]⟩, by simp [unwatch, hu, hn]⟩
      | ok n => rw [hu, hn] at h; simp [Except.isOk, Except.toBool] at h
  · intro inp env h
    cases hu : cleanup_str inp.username with
    | error e => exact ⟨⟨e, by simp [pay_user, hu]⟩, by simp [pay_user, hu]⟩
    | ok u =>
      cases ha : cleanup_str inp.amount with
      | error e => exact ⟨⟨e, by simp [pay_user, hu, ha]⟩, by simp [pay_user, hu, ha]⟩
      | ok a =>
        cases hn : cleanup_str inp.note with
        | error e =>
          exact ⟨⟨e, by simp [pay_user, hu, ha, hn]⟩, by simp [pay_user, hu, ha, hn]⟩
        | ok n => rw [hu, ha, hn] at h; simp [Except.isOk, Except.toBool] at h
  · intro inp env h
    cases hq : cleanup_search_query inp.query with
    | error e => exact ⟨⟨e, by simp [search, hq]⟩, by simp [search, hq]⟩
    | ok q => rw [hq] at h; simp [Except.isOk, Except.toBool] at h

/-- Witness for C5: one invalid input per action (a None URL, a
whitespace-only amount, a None query). -/
theorem c5_validation_before_create_witness :
    ((∃ m, (unwatch ⟨.pynone, .pystr "bob"⟩ ⟨fun _ => true, false, true⟩).1
        = .error (.valueError m))
      ∧ (unwatch ⟨.pynone, .pystr "bob"⟩ ⟨fun _ => true, false, true⟩).2 = [])
    ∧ ((∃ m, (pay_user ⟨.pystr "alice", .pystr "  ", .pystr "lunch"⟩
          ⟨1, 1, fun s => s, true, true, true, true, true⟩).1 = .error (.valueError m))
      ∧ (pay_user ⟨.pystr "alice", .pystr "  ", .pystr "lunch"⟩
          ⟨1, 1, fun s => s, true, true, true, true, true⟩).2 = [])
    ∧ ((∃ m, (search ⟨.pynone⟩ ⟨1, 1, true, "https://www.google.com", true, []⟩).1
        = .error (.valueError m))
      ∧ (search ⟨.pynone⟩ ⟨1, 1, true, "https://www.google.com", true, []⟩).2 = []) :=
  ⟨c5_validation_before_create.1 _ _ (Or.inl (by decide)),
   c5_validation_before_create.2.1 _ _ (Or.inr (Or.inl (by decide))),
   c5_validation_before_create.2.2 _ _ (by decide)⟩

/-- A value returned by cleanup_str is a stripped nonempty string. -/
lemma cleanup_str_ok_ne (v : PyVal) (s : String) (h : cleanup_str v = .ok s) :
    s ≠ "" := by
  cases v with
  | pynone => cases h
  | pyother b => cases h
  | pystr t =>
    have h2 : (if t = "" then (.error "String is required and must be a string" : Except String String)
        else if pyStrip t = "" then .error "String is required and must be a string"
        else .ok (pyStrip t)) = .ok s := h
    split_ifs at h2 with hx hy
    injection h2 with h3
    subst h3
    exact hy

/-- C10: cleanup_str never returns an empty (hence falsy) string, so
the three post-validation guards of pay_user can never fire on values
produced by the validators. -/
theorem c10_pay_user_guards_unreachable :
    (∀ (v : PyVal) (s : String), cleanup_str v = .ok s → s ≠ "")
    ∧ (∀ (vu va vn : PyVal) (u a n : String),
        cleanup_str vu = .ok u → cleanup_str va = .ok a → cleanup_str vn = .ok n →
        payUserGuards u a n = none) := by
  refine ⟨cleanup_str_ok_ne, ?_⟩
  intro vu va vn u a n hu ha hn
  unfold payUserGuards
  simp [cleanup_str_ok_ne vu u hu, cleanup_str_ok_ne va a ha, cleanup_str_ok_ne vn n hn]

/-- Witness for C10 at concrete validated inputs. -/
theorem c10_pay_user_guards_unreachable_witness :
    ("lunch" : String) ≠ "" ∧ payUserGuards "alice" "5" "lunch" = none :=
  ⟨c10_pay_user_guards_unreachable.1 (.pystr " lunch ") "lunch" (by decide),
   c10_pay_user_guards_unreachable.2 (.pystr "alice") (.pystr "5") (.pystr "lunch")
     "alice" "5" "lunch" (by decide) (by decide) (by decide)⟩

/-- The three possible outcomes of the awaited get_page call in
pay_user. -/
lemma getPageVenmo_cases (env : VenmoEnv) :
    (env.contexts = 0 ∧ getPageVenmo env = (.error (.exception "No context found"), []))
    ∨ (env.contexts ≠ 0 ∧ env.pages = 0 ∧ getPageVenmo env = (.ok (), [Event.newPage]))
    ∨ (env.contexts ≠ 0 ∧ env.pages ≠ 0 ∧ getPageVenmo env = (.ok (), [])) := by
  unfold getPageVenmo
  by_cases h1 : env.contexts = 0
  · exact Or.inl ⟨h1, by simp [h1]⟩
  · by_cases h2 : env.pages = 0
    · exact Or.inr (Or.inl ⟨h1, h2, by simp [h1, h2]⟩)
    · exact Or.inr (Or.inr ⟨h1, h2, by simp [h1, h2]⟩)

/-- C8: for pay-user inputs accepted by the validators, with at least
one browser context: when the page URL after navigation equals the
expected profile URL and every interaction succeeds, the action
returns success:true with the Paid message; when the URL differs, it
returns (not raises) success:false with a message containing the
phrase not found or not logged in. -/
theorem c8_pay_user_url_check (inp : PayUserInput) (env : VenmoEnv)
    (u a n : String)
    (hu : cleanup_str inp.username = .ok u)
    (ha : cleanup_str inp.amount = .ok a)
    (hn : cleanup_str inp.note = .ok n)
    (hctx : 0 < env.contexts) :
    (env.urlAfterGoto ("https://account.venmo.com/u/" ++ u)
        = "https://account.venmo.com/u/" ++ u →
      env.payClickOk = true → env.amountFillOk = true → env.noteFillOk = true →
      env.payRequestClickOk = true → env.fundingClickOk = true →
      (pay_user inp env).1 = .ok ⟨true, "Paid " ++ u ++ " " ++ a ++ " for " ++ n⟩)
    ∧ (env.urlAfterGoto ("https://account.venmo.com/u/" ++ u)
        ≠ "https://account.venmo.com/u/" ++ u →
      ∃ msg, (pay_user inp env).1 = .ok ⟨false, msg⟩
        ∧ ∃ pre post, msg.data = pre ++ "not found or not logged in".data ++ post) := by
  have hguard : payUserGuards u a n = none := by
    unfold payUserGuards
    simp [cleanup_str_ok_ne _ _ hu, cleanup_str_ok_ne _ _ ha, cleanup_str_ok_ne _ _ hn]
  have hgp : ∃ tg, getPageVenmo env = (.ok (), tg) := by
    rcases getPageVenmo_cases env with ⟨h0, _⟩ | ⟨_, _, h⟩ | ⟨_, _, h⟩
    · omega
    · exact ⟨_, h⟩
    · exact ⟨_, h⟩
  obtain ⟨tg, hgp⟩ := hgp
  constructor
  · intro hurl hp haf hnf hpr hf
    simp only [pay_user, hu, ha, hn, hguard, hgp, hurl, hp, haf, hnf, hpr, hf]
    simp
  · intro hurl
    refine ⟨"User " ++ u ++ " not found or not logged in. Redirected to "
        ++ env.urlAfterGoto ("https://account.venmo.com/u/" ++ u), ?_, ?_⟩
    · simp only [pay_user, hu, ha, hn, hguard, hgp]
      simp [hurl]
    · refine ⟨"User ".data ++ u.data ++ " ".data,
        (". Redirected to " ++ env.urlAfterGoto ("https://account.venmo.com/u/" ++ u)).data, ?_⟩
      have hsplit : " not found or not logged in. Redirected to ".data
          = " ".data ++ "not found or not logged in".data ++ ". Redirected to ".data := by
        decide
      have : ("User " ++ u ++ " not found or not logged in. Redirected to "
          ++ env.urlAfterGoto ("https://account.venmo.com/u/" ++ u)).data
          = "User ".data ++ u.data ++ " not found or not logged in. Redirected to ".data
            ++ (env.urlAfterGoto ("https://account.venmo.com/u/" ++ u)).data := by
        simp [String.data_append]
      rw [this, hsplit]
      simp [String.data_append, List.append_assoc]

/-- A session with one context and one page where navigation lands on
the requested URL and every interaction succeeds. -/
def envPayOk : VenmoEnv :=
  ⟨1, 1, fun s => s, true, true, true, true, true⟩

/-- A session where every navigation is redirected to the Venmo sign-in
page. -/
def envPayRedirect : VenmoEnv :=
  ⟨1, 1, fun _ => "https://id.venmo.com/signin", true, true, true, true, true⟩

/-- Witness for C8 at the end-to-end scenario of the spec:
pay-user alice 5 lunch on a resolving profile page, and on a page that
redirects to the sign-in URL. -/
theorem c8_pay_user_url_check_witness :
    (pay_user ⟨.pystr "alice", .pystr "5", .pystr "lunch"⟩ envPayOk).1
      = .ok ⟨true, "Paid alice 5 for lunch"⟩
    ∧ ∃ msg, (pay_user ⟨.pystr "alice", .pystr "5", .pystr "lunch"⟩ envPayRedirect).1
        = .ok ⟨false, msg⟩
        ∧ ∃ pre post, msg.data = pre ++ "not found or not logged in".data ++ post :=
  ⟨((c8_pay_user_url_check _ envPayOk "alice" "5" "lunch" (by decide) (by decide)
      (by decide) (by decide)).1 rfl rfl rfl rfl rfl rfl).trans (by decide),
   (c8_pay_user_url_check _ envPayRedirect "alice" "5" "lunch" (by decide) (by decide)
      (by decide) (by decide)).2 (by decide)⟩

/-- The comprehension keeps exactly the truthy texts, in order. -/
lemma filterTexts_eq (ts : List (Option String)) :
    filterTexts ts = (ts.filter textTruthy).map (fun t => t.getD "") := by
  induction ts with
  | nil => rfl
  | cons t rest ih =>
    cases t with
    | none => simpa [filterTexts, textTruthy] using ih
    | some s =>
      by_cases hs : s = ""
      · simp only [filterTexts, textTruthy] at ih ⊢
        simp [hs, ih, List.filter_cons, textTruthy]
      · simp only [filterTexts, textTruthy] at ih ⊢
        simp [hs, ih, List.filter_cons, textTruthy]

/-- On every non-raising path, perform_search returns the filtered
texts. -/
lemma perform_search_ok (env : GoogleEnv) (query : String)
    (h : (env.inputExistsBefore = true
          ∧ listContainsSub "google.com".data env.pageUrl.data = true)
         ∨ env.inputExistsAfterNav = true) :
    ∃ tr, perform_search env query = (.ok (filterTexts env.resultTexts), tr) := by
  have hfst : (perform_search env query).1 = .ok (filterTexts env.resultTexts) := by
    by_cases hc : (!env.inputExistsBefore
        || !(listContainsSub "google.com".data env.pageUrl.data)) = true
    · rcases h with ⟨h1, h2⟩ | h3
      · rw [h1, h2] at hc
        simp at hc
      · simp only [perform_search, asyncioGather]
        rw [if_pos hc, if_neg (by simp [h3])]
    · simp only [perform_search, asyncioGather]
      rw [if_neg hc]
  exact ⟨(perform_search env query).2, by rw [← hfst]⟩

/-- C6: on every run of perform_search that reaches the result scan,
the returned list is the element-order list of the truthy result
texts: it has exactly as many entries as there are elements with
non-empty text, and is the in-order image of the kept elements. -/
theorem c6_search_result_filtering (env : GoogleEnv) (query : String)
    (h : (env.inputExistsBefore = true
          ∧ listContainsSub "google.com".data env.pageUrl.data = true)
         ∨ env.inputExistsAfterNav = true) :
    ∃ tr, perform_search env query
        = (.ok ((env.resultTexts.filter textTruthy).map (fun t => t.getD "")), tr)
      ∧ ((env.resultTexts.filter textTruthy).map (fun t => t.getD "")).length
          = env.resultTexts.countP textTruthy := by
  obtain ⟨tr, htr⟩ := perform_search_ok env query h
  refine ⟨tr, ?_, ?_⟩
  · rw [htr, filterTexts_eq]
  · rw [List.length_map]
    exact (List.countP_eq_length_filter _ _).symm

/-- Witness for C6: four located elements of which two have non-empty
text yield exactly those two texts in DOM order. -/
theorem c6_search_result_filtering_witness :
    ∃ tr, perform_search ⟨1, 1, true, "https://www.google.com/", true,
          [some "alpha", none, some "", some "beta"]⟩ "q"
        = (.ok ((([some "alpha", none, some "", some "beta"]
              : List (Option String)).filter textTruthy).map (fun t => t.getD "")), tr)
      ∧ ((([some "alpha", none, some "", some "beta"]
              : List (Option String)).filter textTruthy).map (fun t => t.getD "")).length
          = ([some "alpha", none, some "", some "beta"]
              : List (Option String)).countP textTruthy :=
  c6_search_result_filtering _ "q" (Or.inl ⟨rfl, by decide⟩)

/-- A logged-in GitHub page with no Unwatch span. -/
def envGithubNoSpan : GithubEnv := ⟨fun _ => true, false, true⟩

/-- A ready Google page: one context, one page, search box present,
already on google.com, one result element. -/
def envGoogleReady : GoogleEnv :=
  ⟨1, 1, true, "https://www.google.com/", true, [some "r1"]⟩

/-- C9 counterexample: a pay-user invocation against a remote browser
with no contexts establishes the connection but raises in get_page
BEFORE the try block, so browser.close is never called. -/
theorem c9_counterexample_pay_user_no_close :
    Event.connect ∈ (pay_user ⟨.pystr "alice", .pystr "5", .pystr "lunch"⟩
        ⟨0, 0, fun s => s, true, true, true, true, true⟩).2
    ∧ Event.browserClose ∉ (pay_user ⟨.pystr "alice", .pystr "5", .pystr "lunch"⟩
        ⟨0, 0, fun s => s, true, true, true, true, true⟩).2 := by decide

/-- C9 (amended): unwatch and search close the browser on every path
on which the connection was established; pay_user does so provided
get_page does not raise before the try block, i.e. provided the
session has at least one browser context. -/
theorem c9_browser_close_amended :
    (∀ (inp : UnwatchInput) (env : GithubEnv),
      Event.connect ∈ (unwatch inp env).2 →
      Event.browserClose ∈ (unwatch inp env).2)
    ∧ (∀ (inp : SearchInput) (env : GoogleEnv),
      Event.connect ∈ (search inp env).2 →
      Event.browserClose ∈ (search inp env).2)
    ∧ (∀ (inp : PayUserInput) (env : VenmoEnv), 0 < env.contexts →
      Event.connect ∈ (pay_user inp env).2 →
      Event.browserClose ∈ (pay_user inp env).2) := by
  refine ⟨?_, ?_, ?_⟩
  · intro inp env hconn
    cases hu : cleanup_url inp.url with
    | error e => simp [unwatch, hu] at hconn
    | ok u =>
      cases hn : cleanup_username inp.username with
      | error e => simp [unwatch, hu, hn] at hconn
      | ok n => simp [unwatch, hu, hn]
  · intro inp env hconn
    cases hq : cleanup_search_query inp.query with
    | error e => simp [search, hq] at hconn
    | ok q =>
      cases hb : (perform_search env q).1 with
      | error e => simp [search, hq, hb]
      | ok r => simp [search, hq, hb]
  · intro inp env hctx hconn
    cases hu : cleanup_str inp.username with
    | error e => simp [pay_user, hu] at hconn
    | ok u =>
      cases ha : cleanup_str inp.amount with
      | error e => simp [pay_user, hu, ha] at hconn
      | ok a =>
        cases hn : cleanup_str inp.note with
        | error e => simp [pay_user, hu, ha, hn] at hconn
        | ok n =>
          cases hg : payUserGuards u a n with
          | some out => simp [pay_user, hu, ha, hn, hg] at hconn
          | none =>
            rcases getPageVenmo_cases env with ⟨h0, _⟩ | ⟨_, _, hgp⟩ | ⟨_, _, hgp⟩
            · omega
            · simp [pay_user, hu, ha, hn, hg, hgp]
            · simp [pay_user, hu, ha, hn, hg, hgp]

/-- Witness for the amended C9: one closing run per action. -/
theorem c9_browser_close_amended_witness :
    Event.browserClose ∈ (unwatch ⟨.pystr "https://github.com/octocat/Hello-World",
        .pystr "alice"⟩ envGithubNoSpan).2
    ∧ Event.browserClose ∈ (search ⟨.pystr "cats"⟩ envGoogleReady).2
    ∧ Event.browserClose ∈ (pay_user ⟨.pystr "alice", .pystr "5", .pystr "lunch"⟩
        envPayOk).2 :=
  ⟨c9_browser_close_amended.1 _ _ (by decide),
   c9_browser_close_amended.2.1 _ _ (by decide),
   c9_browser_close_amended.2.2 _ _ (by decide) (by decide)⟩

/-- C1 counterexample: a complete, successful pay-user run performs no
login poll at all, refuting the claim that the pay action runs the
login poller after navigating. -/
theorem c1_counterexample_pay_never_polls :
    (pay_user ⟨.pystr "alice", .pystr "5", .pystr "lunch"⟩ envPayOk).1
      = .ok ⟨true, "Paid alice 5 for lunch"⟩
    ∧ Event.loginPoll ∉ (pay_user ⟨.pystr "alice", .pystr "5", .pystr "lunch"⟩
        envPayOk).2 := by decide

/-- C1 (amended): only the unwatch action contains the login-poll
step.  Its try-block body, run on a real page, polls right after the
first navigation and on timeout returns success:false without
raising; but every unwatch invocation as written raises
AttributeError before reaching that body's first operation, because
get_page is not awaited.  The pay action never runs the login poller
on any input or environment. -/
theorem c1_login_poller_amended :
    (∀ (env : GithubEnv) (url : String), (∀ t, env.loginProbe t = false) →
      unwatchBody PageVal.real env url
        = (.ok ⟨false, "Login not detected within timeout."⟩,
           [Event.goto url, Event.loginPoll]))
    ∧ (∀ (inp : UnwatchInput) (env : GithubEnv) (u n : String),
      cleanup_url inp.url = .ok u → cleanup_username inp.username = .ok n →
      (unwatch inp env).1
        = .error (.attributeError "'coroutine' object has no attribute 'goto'"))
    ∧ (∀ (inp : PayUserInput) (env : VenmoEnv),
      Event.loginPoll ∉ (pay_user inp env).2) := by
  refine ⟨?_, ?_, ?_⟩
  · intro env url hprobe
    obtain ⟨e, p, s, heq, _, _⟩ :=
      waitForLoginAux_absent env.loginProbe 120 0 1 1 hprobe 120 0 true 0 0 (by omega)
    simp only [unwatchBody, pageGoto, wait_for_login, heq]
    simp
  · intro inp env u n hu hn
    simp [unwatch, hu, hn, unwatchBody, pageGoto]
  · intro inp env
    cases hu : cleanup_str inp.username with
    | error e => simp [pay_user, hu]
    | ok u =>
      cases ha : cleanup_str inp.amount with
      | error e => simp [pay_user, hu, ha]
      | ok a =>
        cases hn : cleanup_str inp.note with
        | error e => simp [pay_user, hu, ha, hn]
        | ok n =>
          cases hg : payUserGuards u a n with
          | some out => simp [pay_user, hu, ha, hn, hg]
          | none =>
            rcases getPageVenmo_cases env with ⟨_, hgp⟩ | ⟨_, _, hgp⟩ | ⟨_, _, hgp⟩ <;>
            · simp only [pay_user, hu, ha, hn, hg, hgp]
              first
              | (split_ifs <;> simp)
              | simp

/-- Witness for the amended C1: a page whose login indicator never
appears, a well-formed unwatch input, and a successful pay-user run. -/
theorem c1_login_poller_amended_witness :
    unwatchBody PageVal.real ⟨fun _ => false, false, true⟩ "https://github.com/x/y"
      = (.ok ⟨false, "Login not detected within timeout."⟩,
         [Event.goto "https://github.com/x/y", Event.loginPoll])
    ∧ (unwatch ⟨.pystr "https://github.com/x/y", .pystr "bob"⟩
        ⟨fun _ => false, false, true⟩).1
      = .error (.attributeError "'coroutine' object has no attribute 'goto'")
    ∧ Event.loginPoll ∉ (pay_user ⟨.pystr "bob", .pystr "1", .pystr "x"⟩ envPayOk).2 :=
  ⟨c1_login_poller_amended.1 _ _ (fun _ => rfl),
   c1_login_poller_amended.2.1 _ _ "https://github.com/x/y" "bob" (by decide) (by decide),
   c1_login_poller_amended.2.2 _ _⟩

/-- C7 (code bug): because src/github/main.py line 122 does not await
get_page, every unwatch invocation raises AttributeError at the first
page operation and can never return the already-unwatched success
result the claim describes; the try-block body itself, run on a real
logged-in page with no Unwatch span, does return it. -/
theorem c7_unwatch_already_unwatched_bug :
    unwatch ⟨.pystr "https://github.com/octocat/Hello-World", .pystr "alice"⟩
        envGithubNoSpan
      = (.error (.attributeError "'coroutine' object has no attribute 'goto'"),
         [Event.browsersCreate "github-alice", Event.connect, Event.browserClose])
    ∧ (unwatchBody PageVal.real envGithubNoSpan
          "https://github.com/octocat/Hello-World").1
      = .ok ⟨true, "Repo already unwatched: https://github.com/octocat/Hello-World"⟩ := by
  decide
